import Mathlib

/-!
Verification of `src/include/boost/context/fiber_emscripten.hpp` (Boost.Context,
emscripten fiber backend).

The header implements move-only `fiber` handles over `fiber_activation_record`
control blocks.  Control transfer happens through `emscripten_fiber_swap`; the
model below embeds the bookkeeping that surrounds that swap as a small-step
machine:

* a store of activation records (`RecC`, indexed by `RecId`, standing for the
  record's address), holding the fields `main_ctx`, `terminated`,
  `force_unwind`, `from` (here `fromp`), `ontop`, plus instrumentation
  (`freeCount`, `closureDestroyed`) recording what `deallocate` has done;
* the thread-local `current()` pointer (`Sys.cur`);
* one suspended continuation per record (`Kont`): a fresh capture record is
  suspended at its entry trampoline (`fiber_entry_func` / `run`), every other
  suspended record sits inside the `emscripten_fiber_swap` call of
  `fiber_activation_record::resume` / `resume_with`, and `Caller` records which
  code follows that swap (the tail of `fiber::resume` back in user code, the
  tail of `fiber::~fiber`, or the tail of the trampoline's final transfer);
* user closures and the main context's code are deep-embedded as `Prog`; the
  single live handle a program owns is threaded as a register.  The
  continuation function given to `resume_with` is modelled as a pure
  transformation of the wrapped pointer.

`BOOST_ASSERT` is modelled as in a debug build: a failing assertion halts the
machine with an `AbortReason`.  An exception escaping `main` (or the `noexcept`
entry function) maps to `AbortReason.uncaughtForcedUnwind`.

A separate, purely arithmetic embedding covers `allocate_and_init_record`
(record placement inside the stack region), and small stand-alone embeddings
cover `operator bool` / `operator!` and move assignment.
-/

set_option maxHeartbeats 1000000

namespace BoostFiber

/-- Identity of a `fiber_activation_record` in the store; stands for the
record's address. -/
abbrev RecId := Nat

/-- Value of a `fiber` handle's `ptr_` member; `none` encodes `nullptr`. -/
abbrev HandlePtr := Option RecId

/-- User continuation passed to `fiber::resume_with`: a `fiber -> fiber`
function, modelled on the pointer the handle wraps. -/
abbrev OnTopFn := HandlePtr → HandlePtr

/-- Deep embedding of code running on a record's stack: the body of a closure
handed to the `fiber` constructor, or the code of the main context.  The one
live handle the code owns is threaded by the machine as a register.
`contTermAssert` is the `BOOST_ASSERT_MSG(false, "continuation already
terminated")` point after the trampoline's final transfer (line 233). -/
inductive Prog where
  | halt : Prog
  | ret : Prog
  | retEmpty : Prog
  | effect (k : Prog) : Prog
  | mkFiber (cl : Prog) (k : Prog) : Prog
  | resume (k : Prog) : Prog
  | resumeWith (fn : OnTopFn) (k : Prog) : Prog
  | dtor (k : Prog) : Prog
  | contTermAssert : Prog

/-- Code that follows the `emscripten_fiber_swap` a suspended record sits in:
the tail of `fiber::resume`/`resume_with` returning into user code (lines
382-388 / 400-406), the tail of `fiber::~fiber` (lines 356-358), or the tail
of the trampoline's final `std::move(c).resume()` (line 233). -/
inductive Caller where
  | userCode (k : Prog) : Caller
  | dtorCode (target : RecId) (k : Prog) : Caller
  | trampFinal : Caller

/-- Suspended continuation of a record: `entry` for a fresh capture record
(first swap into it runs `fiber_entry_func`, line 52), `afterSwap` for a
record suspended inside `emscripten_fiber_swap` (lines 113/161/232), `dead`
for a record that is currently running or already deallocated. -/
inductive Kont where
  | entry (cl : Prog) : Kont
  | afterSwap (caller : Caller) : Kont
  | dead : Kont

/-- One `fiber_activation_record` (lines 59-171).  `freeCount` counts how many
times `fiber_capture_record::destroy` returned the stack to the allocator
(line 197); `closureDestroyed` records that the capture record's destructor ran
(line 195), destroying the stored closure `fn_`. -/
structure RecC where
  main_ctx : Bool
  terminated : Bool
  force_unwind : Bool
  fromp : HandlePtr
  ontop : Option OnTopFn
  kont : Kont
  freeCount : Nat
  closureDestroyed : Bool

/-- Machine state: record store, the thread-local `current()` pointer
(line 73), a fresh-address counter, and instrumentation counting observable
closure side effects and closure invocations by `run()` (line 220). -/
structure Sys where
  recs : RecId → RecC
  cur : RecId
  nextId : Nat
  effects : Nat
  closureInvocations : Nat

/-- Update one record of the store. -/
def updRec (recs : RecId → RecC) (i : RecId) (g : RecC → RecC) : RecId → RecC :=
  Function.update recs i (g (recs i))

/-- Field mutators used by the machine (writes the source performs on a
record). -/
def setFromp (v : HandlePtr) (rc : RecC) : RecC := { rc with fromp := v }

/-- Write `ontop`. -/
def setOntop (v : Option OnTopFn) (rc : RecC) : RecC := { rc with ontop := v }

/-- Write `force_unwind`. -/
def setFU (v : Bool) (rc : RecC) : RecC := { rc with force_unwind := v }

/-- Write the stored continuation (the state of the record's own stack). -/
def setKont (v : Kont) (rc : RecC) : RecC := { rc with kont := v }

/-- The writes of `run()`'s termination sequence (lines 227-231). -/
def setTermFlags (rc : RecC) : RecC :=
  { rc with fromp := none, ontop := none, terminated := true, force_unwind := false }

/-- The writes of `fiber_capture_record::destroy` (lines 191-198). -/
def setDealloc (rc : RecC) : RecC :=
  { rc with closureDestroyed := true, freeCount := rc.freeCount + 1, kont := Kont.dead }

/-- Actively executing code.  `progC` is user/main code; `runStart` is
`fiber_entry_func` entering `run()` on the current record; `resumedBack` is the
code after the swap of `fiber_activation_record::resume`/`resume_with`;
`termSeq` is `run()`'s termination sequence (lines 227-232); `throwFU` is a
`forced_unwind` exception propagating on the current stack; `dtorRun` is the
body of `fiber::~fiber` (lines 351-360) for the given handle. -/
inductive Code where
  | progC (curH : HandlePtr) (p : Prog) : Code
  | runStart (cl : Prog) : Code
  | resumedBack (caller : Caller) : Code
  | termSeq (r : RecId) (c : HandlePtr) : Code
  | throwFU (ptr : HandlePtr) : Code
  | dtorRun (target : HandlePtr) (k : Prog) : Code

/-- Reasons the machine halts abnormally (each a `BOOST_ASSERT`, except
`uncaughtForcedUnwind` = `forced_unwind` escaping code with no handler, and
`stuck` = switching into a deallocated record). -/
inductive AbortReason where
  | emptyResumeAssert : AbortReason
  | dtorTerminatedAssert : AbortReason
  | deallocateAssert : AbortReason
  | contAlreadyTerminated : AbortReason
  | uncaughtForcedUnwind : AbortReason
  | stuck : AbortReason

/-- Result of a whole run. -/
inductive Outcome where
  | finished (s : Sys) : Outcome
  | aborted (why : AbortReason) (s : Sys) : Outcome
  | fuelOut : Outcome

/-- Result of one machine step. -/
inductive StepRes where
  | cont (s : Sys) (c : Code) : StepRes
  | halt (o : Outcome) : StepRes

/-- `fiber::operator!` (line 411): `nullptr == ptr_ || ptr_->terminated`. -/
def fiber_op_not (recs : RecId → RecC) (p : HandlePtr) : Bool :=
  match p with
  | none => true
  | some r => (recs r).terminated

/-- `fiber::operator bool` (line 409): `nullptr != ptr_ && !ptr_->terminated`. -/
def fiber_op_bool (recs : RecId → RecC) (p : HandlePtr) : Bool :=
  match p with
  | none => false
  | some r => !(recs r).terminated

/-- Body of the lambda `resume_with` stores in `ontop` (lines 146-157):
`Ctx c{ptr}; c = fn(std::move(c)); if (!c) { ptr = nullptr; } return
std::exchange(c.ptr_, nullptr);`.  First component: final value of the
by-reference argument `ptr`; second component: the returned pointer (which the
call sites at lines 385/403 assign back over `ptr`). -/
def ontopApply (recs : RecId → RecC) (fn : OnTopFn) (ptr : HandlePtr) :
    HandlePtr × HandlePtr :=
  let c := fn ptr
  ((if fiber_op_not recs c then none else ptr), c)

/-- A capture record as built by `create_fiber1`/`create_fiber2` via
`allocate_and_init_record`: `main_ctx = false` (line 85), flags clear, and the
entry continuation installed by `emscripten_fiber_init` (line 263). -/
def freshCapture (cl : Prog) : RecC :=
  { main_ctx := false, terminated := false, force_unwind := false,
    fromp := none, ontop := none, kont := .entry cl,
    freeCount := 0, closureDestroyed := false }

/-- The main-context record built by the default constructor (lines 77-81). -/
def mainRec : RecC :=
  { main_ctx := true, terminated := false, force_unwind := false,
    fromp := none, ontop := none, kont := .dead,
    freeCount := 0, closureDestroyed := false }

/-- Dispatch on the stored continuation of the record just switched into. -/
def kontToCode : Kont → Option Code
  | .entry cl => some (.runStart cl)
  | .afterSwap caller => some (.resumedBack caller)
  | .dead => none

/-- Complete a context switch into record `t`: run whatever `t` was suspended
at. -/
def switchInto (s : Sys) (t : RecId) : StepRes :=
  match kontToCode (s.recs t).kont with
  | some c => .cont s c
  | none => .halt (.aborted .stuck s)

/-- `fiber_capture_record::deallocate` (lines 206-209): assert
`main_ctx || (!main_ctx && terminated)`, then `destroy(this)` (lines 191-198):
run the record's destructor (destroying the stored closure) and return the
stack to the allocator. -/
def deallocStep (s : Sys) (t : RecId) (next : Code) : StepRes :=
  let rc := s.recs t
  if rc.main_ctx || (!rc.main_ctx && rc.terminated) then
    .cont { s with recs := updRec s.recs t setDealloc } next
  else .halt (.aborted .deallocateAssert s)

/-- One machine step.  Each arm transcribes the corresponding stretch of
source code between two suspension points (or up to a halt):

* `progC`: user/main code.  `resume`/`resumeWith` are `fiber::resume` (lines
  375-381) / `fiber::resume_with` (lines 391-399) up to the swap inside
  `fiber_activation_record::resume` (lines 105-113) / `resume_with` (lines
  122-161): assert the handle non-empty, set the target's `from` to
  `current()`, make the target current (for `resume_with`, then install the
  `ontop` lambda on `current()` = the target), and swap, saving this stack's
  continuation.  `dtor` enters `fiber::~fiber`.  `ret` returns the closure's
  result handle to `run()` (line 220/222).
* `runStart`: `fiber_entry_func` (lines 52-57) + `run()` up to the closure
  call (lines 216-222): build `Ctx c{from}` (reading, not clearing, `from`)
  and invoke the closure.
* `resumedBack`: the code after the swap: `return std::exchange(
  current()->from, nullptr)` (line 118/166), then the caller's tail — for
  `userCode` the `force_unwind` / `ontop` handling of `fiber::resume` (lines
  382-388), for `dtorCode` the `BOOST_ASSERT(ptr_->terminated);
  ptr_->deallocate();` of the destructor (lines 356-358), for `trampFinal`
  the destruction of the discarded temporary handle followed by
  `BOOST_ASSERT_MSG(false, ...)` (line 233).
* `termSeq`: `run()`'s lines 227-232: clear `from`/`ontop`, set `terminated`,
  clear `force_unwind`, then `std::move(c).resume()`.
* `throwFU`: `throw forced_unwind{ptr}` propagating: caught by `run()`'s
  `catch (forced_unwind const& ex)` (lines 224-226) when the stack belongs to
  a capture record, uncaught (std::terminate) on the main context.
* `dtorRun`: `fiber::~fiber` (lines 351-360). -/
def step (s : Sys) (c : Code) : StepRes :=
  match c with
  | .progC curH p =>
    match p with
    | .halt => .halt (.finished s)
    | .ret => .cont s (.termSeq s.cur curH)
    | .retEmpty => .cont s (.termSeq s.cur none)
    | .effect k => .cont { s with effects := s.effects + 1 } (.progC curH k)
    | .contTermAssert => .halt (.aborted .contAlreadyTerminated s)
    | .mkFiber cl k =>
        .cont { s with nextId := s.nextId + 1,
                       recs := Function.update s.recs s.nextId (freshCapture cl) }
          (.progC (some s.nextId) k)
    | .resume k =>
        match curH with
        | none => .halt (.aborted .emptyResumeAssert s)
        | some t =>
            let s1 := { s with recs := updRec s.recs t (setFromp (some s.cur)) }
            let s2 := { s1 with cur := t }
            let s3 := { s2 with recs := updRec s2.recs s.cur (setKont (.afterSwap (.userCode k))) }
            switchInto s3 t
    | .resumeWith fn k =>
        match curH with
        | none => .halt (.aborted .emptyResumeAssert s)
        | some t =>
            let s1 := { s with recs := updRec s.recs t (setFromp (some s.cur)) }
            let s2 := { s1 with cur := t }
            let s3 := { s2 with recs := updRec s2.recs t (setOntop (some fn)) }
            let s4 := { s3 with recs := updRec s3.recs s.cur (setKont (.afterSwap (.userCode k))) }
            switchInto s4 t
    | .dtor k => .cont s (.dtorRun curH k)
  | .runStart cl =>
      .cont { s with closureInvocations := s.closureInvocations + 1 }
        (.progC (s.recs s.cur).fromp cl)
  | .resumedBack caller =>
      let ptr := (s.recs s.cur).fromp
      let s1 := { s with recs := updRec s.recs s.cur (setFromp none) }
      match caller with
      | .userCode k =>
          if (s1.recs s1.cur).force_unwind then .cont s1 (.throwFU ptr)
          else
            match (s1.recs s1.cur).ontop with
            | some fn =>
                let s2 := { s1 with recs := updRec s1.recs s1.cur (setOntop none) }
                .cont s2 (.progC (ontopApply s1.recs fn ptr).2 k)
            | none => .cont s1 (.progC ptr k)
      | .dtorCode target k =>
          if (s1.recs target).terminated then deallocStep s1 target (.progC none k)
          else .halt (.aborted .dtorTerminatedAssert s1)
      | .trampFinal =>
          if (s1.recs s1.cur).force_unwind then
            .halt (.aborted .uncaughtForcedUnwind s1)
          else
            match (s1.recs s1.cur).ontop with
            | some fn =>
                let s2 := { s1 with recs := updRec s1.recs s1.cur (setOntop none) }
                .cont s2 (.dtorRun (ontopApply s1.recs fn ptr).2 .contTermAssert)
            | none => .cont s1 (.dtorRun ptr .contTermAssert)
  | .termSeq r c =>
      let s1 := { s with recs := updRec s.recs r setTermFlags }
      match c with
      | none => .halt (.aborted .emptyResumeAssert s1)
      | some t =>
          let s2 := { s1 with recs := updRec s1.recs t (setFromp (some s1.cur)) }
          let s3 := { s2 with cur := t }
          let s4 := { s3 with recs := updRec s3.recs r (setKont (.afterSwap .trampFinal)) }
          switchInto s4 t
  | .throwFU ptr =>
      if (s.recs s.cur).main_ctx then .halt (.aborted .uncaughtForcedUnwind s)
      else .cont s (.termSeq s.cur ptr)
  | .dtorRun target k =>
      match target with
      | none => .cont s (.progC none k)
      | some t =>
          if (s.recs t).main_ctx then .cont s (.progC none k)
          else if (s.recs t).terminated then deallocStep s t (.progC none k)
          else
            let s1 := { s with recs := updRec s.recs t (setFU true) }
            let s2 := { s1 with recs := updRec s1.recs t (setFromp (some s.cur)) }
            let s3 := { s2 with cur := t }
            let s4 := { s3 with recs := updRec s3.recs s.cur (setKont (.afterSwap (.dtorCode t k))) }
            switchInto s4 t

/-- Run `n` machine steps (or stop at a halt). -/
def stepN : Nat → Sys → Code → StepRes
  | 0, s, c => .cont s c
  | n + 1, s, c =>
    match step s c with
    | .cont s2 c2 => stepN n s2 c2
    | .halt o => .halt o

/-- Run the machine to completion under a fuel bound. -/
def machRun : Nat → Sys → Code → Outcome
  | 0, _, _ => .fuelOut
  | n + 1, s, c =>
    match step s c with
    | .cont s2 c2 => machRun n s2 c2
    | .halt o => o

/-- Initial state: the per-thread main-context record at id 0, current. -/
def initSys : Sys :=
  { recs := fun _ => mainRec, cur := 0,
    nextId := 1, effects := 0, closureInvocations := 0 }

/-- Run a whole main program from the initial state. -/
def runMain (fuel : Nat) (p : Prog) : Outcome :=
  machRun fuel initSys (.progC none p)

/-- Abort reason of an outcome, if any. -/
def abortOf : Outcome → Option AbortReason
  | .aborted why _ => some why
  | _ => none

/-- Final state of an outcome, if the run did not exhaust its fuel. -/
def sysOf : Outcome → Option Sys
  | .finished s => some s
  | .aborted _ s => some s
  | .fuelOut => none

/-- Whether the run finished normally. -/
def isFinished : Outcome → Bool
  | .finished _ => true
  | _ => false

/-! Move assignment (`fiber::operator=`, lines 367-373, with the move
constructor at line 365 and `swap` at line 435 it invokes).  `fiber` objects
live at addresses in a store, each holding its `ptr_` member; the arguments
are the addresses of `*this` and `other`, so that the `this != &other`
aliasing guard can be modelled exactly. -/

/-- Store of `fiber` objects by address. -/
abbrev FiberStore := Nat → HandlePtr

/-- `fiber::operator=(fiber&&)`: `if (this != &other) { fiber tmp =
std::move(other); swap(tmp); }`.  Result: the updated store, and the pointer
held by the temporary when its destructor runs (the record move-assignment
tears down); `none` when nothing is destroyed. -/
def fiber_move_assign (st : FiberStore) (this other : Nat) : FiberStore × HandlePtr :=
  if this = other then (st, none)
  else
    let tmpPtr := st other
    let st1 := Function.update st other none
    let thisPtr := st1 this
    let st2 := Function.update st1 this tmpPtr
    (st2, thisPtr)

/-! Record placement: `allocate_and_init_record` (lines 238-267).  Addresses
are Nat values of `uintptr_t` on the 32-bit (wasm32) emscripten target;
subtraction is two's-complement, modelled with an explicit `% 2 ^ 32`. -/

/-- Size of the `uintptr_t` value space on the target. -/
def UINTPTR_MOD : Nat := 2 ^ 32

/-- Value of `~static_cast<uintptr_t>(0xff)` on the target. -/
def maskNotFF : Nat := UINTPTR_MOD - 256

/-- Wrapping `uintptr_t` subtraction. -/
def sub32 (a b : Nat) : Nat := (a + UINTPTR_MOD - b % UINTPTR_MOD) % UINTPTR_MOD

/-- `stack_context`: `sp` is the upper end of the stack region, `size` its
length (line 243: the bottom is `sp - size`). -/
structure stack_context where
  sp : Nat
  size : Nat

/-- Placement computed by `allocate_and_init_record` for the capture record and
its asyncify (auxiliary) stack. -/
structure InitPlacement where
  record_ptr : Nat
  asyncify_stack_ptr : Nat
  asyncify_stack_size : Nat
  asyncify_stack_owned : Bool

/-- `allocate_and_init_record` (lines 238-267): place the record at
`(stack_base - (sizeof(T) + 10000)) & ~0xff`, assert it lies strictly above
`stack_bottom` (line 247; `none` when the assertion fails), and give the
record the bytes from the end of the record up to `sctx.sp` as its asyncify
stack (lines 253-258).  The record is constructed with
`fiber_activation_record(stack_context)` (lines 83-85), which leaves
`asyncify_stack_owned` at its `false` default (line 64); nothing in
`allocate_and_init_record` sets it. -/
def allocate_and_init_record (sctx : stack_context) (stack_base sizeofT : Nat) :
    Option InitPlacement :=
  let required_space := sizeofT + 10000
  let stack_bottom := sub32 sctx.sp sctx.size
  let record_ptr := sub32 stack_base required_space &&& maskNotFF
  if stack_bottom < record_ptr then
    let asyncify_stack_ptr := record_ptr + sizeofT
    some { record_ptr := record_ptr,
           asyncify_stack_ptr := asyncify_stack_ptr,
           asyncify_stack_size := sub32 sctx.sp asyncify_stack_ptr,
           asyncify_stack_owned := false }
  else none

/-- Guard of `~fiber_activation_record` (lines 95-98): the asyncify stack is
freed there only when `asyncify_stack && asyncify_stack_owned`. -/
def activationDtorFreesAsyncify (hasAsyncifyStack owned : Bool) : Bool :=
  hasAsyncifyStack && owned

/-! Concrete scenario programs and witness states. -/

/-- Closure that performs one observable side effect, then returns the handle
it received. -/
def witnessClosure : Prog := .effect .ret

/-- Main program: construct a fiber and destroy the handle without ever
resuming it. -/
def freshDropMain : Prog := .mkFiber witnessClosure (.dtor .halt)

/-- Closure that resumes the handle it received (transferring control back to
its creator), then returns the handle it gets back. -/
def resumingClosure : Prog := .resume .ret

/-- Main program: construct a fiber with `resumingClosure` and destroy the
handle without ever resuming it. -/
def freshDropResuming : Prog := .mkFiber resumingClosure (.dtor .halt)

/-- A capture record suspended inside a `resume`/`resume_with` call made from
its closure, with continuation `k`. -/
def suspUserRec (k : Prog) : RecC :=
  { main_ctx := false, terminated := false, force_unwind := false,
    fromp := none, ontop := none, kont := .afterSwap (.userCode k),
    freeCount := 0, closureDestroyed := false }

/-- A terminated capture record, suspended at the trampoline's final transfer
(the state `run()` leaves a record in). -/
def termRec : RecC :=
  { main_ctx := false, terminated := true, force_unwind := false,
    fromp := none, ontop := none, kont := .afterSwap .trampFinal,
    freeCount := 0, closureDestroyed := false }

/-- Witness state: record `rc` at id 1, main context (id 0) running. -/
def sysWith (rc : RecC) : Sys :=
  { recs := Function.update (fun _ => mainRec) 1 rc, cur := 0,
    nextId := 2, effects := 0, closureInvocations := 0 }

/-- Witness state: record `rc` at id 1 and currently running. -/
def sysCur (rc : RecC) : Sys :=
  { recs := Function.update (fun _ => mainRec) 1 rc, cur := 1,
    nextId := 2, effects := 0, closureInvocations := 0 }

/-- Witness state with explicit records at ids 0 and 1. -/
def sysPair (rc0 rc1 : RecC) (c : RecId) : Sys :=
  { recs := Function.update (Function.update (fun _ => mainRec) 0 rc0) 1 rc1,
    cur := c, nextId := 2, effects := 0, closureInvocations := 0 }

/-- A non-main, non-terminated record with the given transfer fields. -/
def recWith (fu : Bool) (fp : HandlePtr) (ot : Option OnTopFn) (kn : Kont) : RecC :=
  { main_ctx := false, terminated := false, force_unwind := fu,
    fromp := fp, ontop := ot, kont := kn, freeCount := 0, closureDestroyed := false }

/-- Identity continuation for `resume_with` witnesses. -/
def idOnTop : OnTopFn := fun p => p

/-- State carried by a `cont` step result. -/
def contSys : StepRes → Option Sys
  | .cont s _ => some s
  | .halt _ => none

/-- Code carried by a `cont` step result. -/
def contCode : StepRes → Option Code
  | .cont _ c => some c
  | .halt _ => none

/-- Abort reason of a halted step result. -/
def haltWhy : StepRes → Option AbortReason
  | .halt (.aborted why _) => some why
  | _ => none

/-- Witness state for the forced-unwind branch of the resume-return path. -/
def c3sysA : Sys := sysCur (recWith true (some 0) none .dead)

/-- Witness state for the plain branch of the resume-return path. -/
def c3sysB : Sys := sysCur (recWith false (some 0) none .dead)

/-- Witness state for the `ontop` branch of the resume-return path. -/
def c3sysC : Sys := sysCur (recWith false (some 0) (some idOnTop) .dead)

/-! Helper lemmas. -/

/-- Reading the updated record. -/
@[simp] theorem updRec_eq (recs : RecId → RecC) (i : RecId) (g : RecC → RecC) :
    updRec recs i g i = g (recs i) := by
  simp [updRec]

/-- Reading any other record. -/
theorem updRec_ne (recs : RecId → RecC) (i j : RecId) (g : RecC → RecC) (h : j ≠ i) :
    updRec recs i g j = recs j := by
  simp [updRec, Function.update_noteq h]

/-- Masking with `~0xff` rounds a 32-bit value down to a multiple of 256. -/
theorem land_maskNotFF (x : Nat) (hx : x < 2 ^ 32) :
    x &&& maskNotFF = 256 * (x / 256) := by
  have hrw : 256 * (x / 256) = (x >>> 8) <<< 8 := by
    rw [Nat.shiftRight_eq_div_pow, Nat.shiftLeft_eq]
    norm_num [Nat.mul_comm]
  rw [hrw]
  apply Nat.eq_of_testBit_eq
  intro i
  rw [Nat.testBit_and, Nat.testBit_shiftLeft, Nat.testBit_shiftRight]
  rcases lt_or_ge i 8 with h8 | h8
  · have hm : maskNotFF.testBit i = false := by
      interval_cases i <;> decide
    simp [hm, Nat.not_le.mpr h8]
  · have hi : 8 + (i - 8) = i := by omega
    rw [hi]
    rcases lt_or_ge i 32 with h32 | h32
    · have hm : maskNotFF.testBit i = true := by
        interval_cases i <;> decide
      simp [hm, h8]
    · have hxw : x.testBit i = false :=
        Nat.testBit_lt_two_pow
          (lt_of_lt_of_le hx (Nat.pow_le_pow_right (by norm_num) h32))
      simp [hxw]

/-! Claim theorems. -/

/-- C3: when control returns to a `resume()` call site (lines 382-388 after
the swap at line 113), the implementation reads `current()->from` and clears
it (`std::exchange`, line 118); if `current()->force_unwind` is set it raises
the forced-unwind signal carrying that `from` record — taking precedence over
any installed `ontop` (first conjunct assumes nothing about `ontop`);
otherwise, if `current()->ontop` is set, it invokes the slot with the `from`
pointer, uses the invocation's result as the effective `from`, clears the
slot, and hands user code a handle wrapping the resulting `from` record. -/
theorem C3_resume_return_protocol (s : Sys) (k : Prog) :
    ((s.recs s.cur).force_unwind = true →
      step s (.resumedBack (.userCode k)) =
        .cont { s with recs := updRec s.recs s.cur (setFromp none) }
          (.throwFU (s.recs s.cur).fromp))
    ∧ ((s.recs s.cur).force_unwind = false → (s.recs s.cur).ontop = none →
      step s (.resumedBack (.userCode k)) =
        .cont { s with recs := updRec s.recs s.cur (setFromp none) }
          (.progC (s.recs s.cur).fromp k))
    ∧ (∀ fn, (s.recs s.cur).force_unwind = false → (s.recs s.cur).ontop = some fn →
      step s (.resumedBack (.userCode k)) =
        .cont { s with recs :=
                  updRec (updRec s.recs s.cur (setFromp none)) s.cur (setOntop none) }
          (.progC (ontopApply (updRec s.recs s.cur (setFromp none)) fn
                     (s.recs s.cur).fromp).2 k)) := by
  refine ⟨?_, ?_, ?_⟩
  · intro hfu
    simp [step, setFromp, hfu]
  · intro hfu hot
    simp [step, setFromp, hfu, hot]
  · intro fn hfu hot
    simp [step, setFromp, setOntop, hfu, hot]

/-- Witness for C3: the three branches at concrete suspended states. -/
theorem C3_resume_return_protocol_witness :
    (c3sysA.recs c3sysA.cur).force_unwind = true
    ∧ step c3sysA (.resumedBack (.userCode .halt)) =
        .cont { c3sysA with recs := updRec c3sysA.recs c3sysA.cur (setFromp none) }
          (.throwFU (c3sysA.recs c3sysA.cur).fromp)
    ∧ (c3sysB.recs c3sysB.cur).ontop = none
    ∧ step c3sysB (.resumedBack (.userCode .halt)) =
        .cont { c3sysB with recs := updRec c3sysB.recs c3sysB.cur (setFromp none) }
          (.progC (c3sysB.recs c3sysB.cur).fromp .halt)
    ∧ (c3sysC.recs c3sysC.cur).ontop = some idOnTop
    ∧ step c3sysC (.resumedBack (.userCode .halt)) =
        .cont { c3sysC with recs := updRec (updRec c3sysC.recs c3sysC.cur (setFromp none)) c3sysC.cur (setOntop none) }
          (.progC (ontopApply (updRec c3sysC.recs c3sysC.cur (setFromp none)) idOnTop
                     (c3sysC.recs c3sysC.cur).fromp).2 .halt) :=
  ⟨rfl, (C3_resume_return_protocol c3sysA .halt).1 rfl,
   rfl, (C3_resume_return_protocol c3sysB .halt).2.1 rfl rfl,
   rfl, (C3_resume_return_protocol c3sysC .halt).2.2 idOnTop rfl rfl⟩

/-- C5: `resume_with(fn)` (lines 391-399, 122-168) installs the wrapper for
`fn` into the target record's `ontop` slot before the context switch (once the
switch completes, the target's `ontop` holds `fn`, its `from` points at the
resumer, the target is current, and the resumer is suspended at the call
site); the slot, when later invoked at a resume-return site, is passed the
eventual `from` pointer and its result becomes the effective `from`; the
stored lambda hands `fn` a handle built from that pointer and returns the
pointer of the handle `fn` returns, so an empty returned handle makes the
effective `from` null. -/
theorem C5_resume_with_ontop (s : Sys) (t : RecId) (fn : OnTopFn) (k : Prog)
    (ca : Caller) (hne : t ≠ s.cur) (hkont : (s.recs t).kont = .afterSwap ca) :
    (contCode (step s (.progC (some t) (.resumeWith fn k))) = some (.resumedBack ca)
     ∧ (contSys (step s (.progC (some t) (.resumeWith fn k)))).map
         (fun s4 => ((s4.recs t).ontop, (s4.recs t).fromp, s4.cur,
                     (s4.recs s.cur).kont))
       = some (some fn, some s.cur, t, .afterSwap (.userCode k)))
    ∧ (∀ recs0 ptr, (ontopApply recs0 fn ptr).2 = fn ptr)
    ∧ (∀ recs0 ptr, fn ptr = none → (ontopApply recs0 fn ptr).2 = none)
    ∧ (∀ s9 k9, (s9.recs s9.cur).force_unwind = false →
        (s9.recs s9.cur).ontop = some fn →
        step s9 (.resumedBack (.userCode k9)) =
          .cont { s9 with recs := updRec (updRec s9.recs s9.cur (setFromp none)) s9.cur (setOntop none) }
            (.progC (ontopApply (updRec s9.recs s9.cur (setFromp none)) fn
                       (s9.recs s9.cur).fromp).2 k9)) := by
  refine ⟨⟨?_, ?_⟩, fun recs0 ptr => rfl, ?_, ?_⟩
  · simp [step, switchInto, kontToCode, contCode, setFromp, setOntop, setKont,
          updRec_ne, hne, hkont]
  · simp [step, switchInto, kontToCode, contSys, setFromp, setOntop, setKont,
          updRec_ne, hne, Ne.symm hne, hkont]
  · intro recs0 ptr h
    simp [ontopApply, h]
  · intro s9 k9 hfu hot
    simp [step, setFromp, setOntop, hfu, hot]

/-- Witness for C5: `resume_with` from the main context into a suspended
record, with the identity continuation. -/
theorem C5_resume_with_ontop_witness :
    (1 : RecId) ≠ (sysWith (suspUserRec .ret)).cur
    ∧ ((sysWith (suspUserRec .ret)).recs 1).kont = .afterSwap (.userCode .ret)
    ∧ contCode (step (sysWith (suspUserRec .ret))
        (.progC (some 1) (.resumeWith idOnTop .halt))) = some (.resumedBack (.userCode .ret))
    ∧ (contSys (step (sysWith (suspUserRec .ret))
        (.progC (some 1) (.resumeWith idOnTop .halt)))).map
          (fun s4 => ((s4.recs 1).ontop, (s4.recs 1).fromp, s4.cur, (s4.recs 0).kont))
        = some (some idOnTop, some 0, 1, .afterSwap (.userCode .halt))
    ∧ (ontopApply initSys.recs idOnTop none).2 = none :=
  ⟨by decide, rfl,
   (C5_resume_with_ontop (sysWith (suspUserRec .ret)) 1 idOnTop .halt
      (.userCode .ret) (by decide) rfl).1.1,
   (C5_resume_with_ontop (sysWith (suspUserRec .ret)) 1 idOnTop .halt
      (.userCode .ret) (by decide) rfl).1.2,
   (C5_resume_with_ontop (sysWith (suspUserRec .ret)) 1 idOnTop .halt
      (.userCode .ret) (by decide) rfl).2.2.1 initSys.recs none rfl⟩

/-- C4: the entry trampoline protocol (`fiber_capture_record::run`, lines
211-234, entered through `fiber_entry_func`, lines 52-57): (a) on first
activation the closure is invoked with a handle wrapping the resumer's record
(the `from` pointer the resumer stored); (b) a forced-unwind signal raised
while the closure runs on a capture record is caught by `run()`'s handler and
the carried record becomes the final transfer target; (c) before transferring
to the final target, `run()` sets `terminated`, clears `from`, `ontop` and
`force_unwind`, and resumes into the target (which observes `from` = the
terminating record); (d) control coming back to the trampoline after its
final transfer does not return normally: it reaches
`BOOST_ASSERT_MSG(false, "continuation already terminated")`. -/
theorem C4_trampoline_protocol :
    (∀ s cl p, (s.recs s.cur).fromp = some p →
       step s (.runStart cl) =
         .cont { s with closureInvocations := s.closureInvocations + 1 }
           (.progC (some p) cl))
    ∧ (∀ s ptr, (s.recs s.cur).main_ctx = false →
       step s (.throwFU ptr) = .cont s (.termSeq s.cur ptr))
    ∧ (∀ s t ca, t ≠ s.cur → (s.recs t).kont = .afterSwap ca →
       contCode (step s (.termSeq s.cur (some t))) = some (.resumedBack ca)
       ∧ (contSys (step s (.termSeq s.cur (some t)))).map
           (fun s4 => ((s4.recs s.cur).terminated, (s4.recs s.cur).fromp,
                       (s4.recs s.cur).ontop, (s4.recs s.cur).force_unwind,
                       (s4.recs s.cur).kont, s4.cur, (s4.recs t).fromp))
         = some (true, none, none, false, .afterSwap .trampFinal, t, some s.cur))
    ∧ (∀ s m, m ≠ s.cur → (s.recs s.cur).force_unwind = false →
       (s.recs s.cur).ontop = none → (s.recs s.cur).fromp = some m →
       (s.recs m).main_ctx = true →
       haltWhy (stepN 3 s (.resumedBack .trampFinal)) = some .contAlreadyTerminated) := by
  refine ⟨?_, ?_, ?_, ?_⟩
  · intro s cl p hfp
    simp [step, hfp]
  · intro s ptr hmain
    simp [step, hmain]
  · intro s t ca hne hkont
    constructor
    · simp [step, switchInto, kontToCode, contCode, setTermFlags, setFromp, setKont,
            updRec_ne, hne, hkont]
    · simp [step, switchInto, kontToCode, contSys, setTermFlags, setFromp, setKont,
            updRec_ne, hne, Ne.symm hne, hkont]
  · intro s m hne hfu hot hfp hmain
    simp [stepN, step, haltWhy, setFromp, updRec_ne, hne, Ne.symm hne, hfu, hot, hfp, hmain]

/-- Witness for C4: the four trampoline facts at concrete states. -/
theorem C4_trampoline_protocol_witness :
    ((sysCur (recWith false (some 0) none .dead)).recs
        (sysCur (recWith false (some 0) none .dead)).cur).fromp = some 0
    ∧ step (sysCur (recWith false (some 0) none .dead)) (.runStart .halt) =
        .cont { sysCur (recWith false (some 0) none .dead) with closureInvocations := 1 }
          (.progC (some 0) .halt)
    ∧ step (sysCur (recWith false (some 0) none .dead)) (.throwFU (some 0)) =
        .cont (sysCur (recWith false (some 0) none .dead))
          (.termSeq (sysCur (recWith false (some 0) none .dead)).cur (some 0))
    ∧ contCode (step (sysPair { mainRec with kont := .afterSwap (.userCode .halt) }
        (recWith false none none .dead) 1) (.termSeq 1 (some 0)))
      = some (.resumedBack (.userCode .halt))
    ∧ haltWhy (stepN 3 (sysCur (recWith false (some 0) none .dead))
        (.resumedBack .trampFinal)) = some .contAlreadyTerminated := by
  refine ⟨rfl, ?_, ?_, ?_, ?_⟩
  · exact (C4_trampoline_protocol.1 (sysCur (recWith false (some 0) none .dead)) .halt 0 rfl)
  · exact (C4_trampoline_protocol.2.1 (sysCur (recWith false (some 0) none .dead)) (some 0) rfl)
  · exact (C4_trampoline_protocol.2.2.1 (sysPair { mainRec with kont := .afterSwap (.userCode .halt) } (recWith false none none .dead) 1) 0 (.userCode .halt) (by decide) rfl).1
  · exact (C4_trampoline_protocol.2.2.2 (sysCur (recWith false (some 0) none .dead)) 0 (by decide) rfl rfl rfl rfl)

/-- C6: misuse of the transfer surface is fatal.  (i) Resuming an empty
handle trips `BOOST_ASSERT(nullptr != ptr_)` (line 376) before any transfer
(the state is returned untouched inside the halt).  (ii) Resuming a handle
that wraps an already-terminated record passes that assertion, switches into
the terminated record's trampoline (its stack is suspended at the final
transfer of `run()`), and there trips `BOOST_ASSERT_MSG(false, "continuation
already terminated")` (line 233). -/
theorem C6_misuse_is_fatal :
    (∀ s k, step s (.progC none (.resume k)) = .halt (.aborted .emptyResumeAssert s))
    ∧ (∀ s t k, t ≠ s.cur → (s.recs t).terminated = true →
        (s.recs t).kont = .afterSwap .trampFinal →
        (s.recs t).force_unwind = false → (s.recs t).ontop = none →
        (s.recs s.cur).main_ctx = true →
        haltWhy (stepN 4 s (.progC (some t) (.resume k)))
          = some .contAlreadyTerminated) := by
  constructor
  · intro s k
    simp [step]
  · intro s t k hne hterm hkont hfu hot hmain
    simp [stepN, step, haltWhy, switchInto, kontToCode, setFromp, setKont,
          updRec_ne, hne, Ne.symm hne, hkont, hfu, hot, hmain]

/-- Witness for C6: resuming an empty handle from the initial state, and
resuming a concrete terminated record from the main context. -/
theorem C6_misuse_is_fatal_witness :
    step initSys (.progC none (.resume .halt))
      = .halt (.aborted .emptyResumeAssert initSys)
    ∧ ((sysWith termRec).recs 1).terminated = true
    ∧ haltWhy (stepN 4 (sysWith termRec) (.progC (some 1) (.resume .halt)))
        = some .contAlreadyTerminated :=
  ⟨C6_misuse_is_fatal.1 initSys .halt, rfl,
   C6_misuse_is_fatal.2 (sysWith termRec) 1 .halt (by decide) rfl rfl rfl rfl rfl⟩

/-- C1 (amended): for every handle that is non-empty, non-main, whose record
is not yet terminated and is suspended inside a `resume()`/`resume_with()`
call made from its closure, `fiber::~fiber` (lines 351-360) sets
`force_unwind`, resumes the record (which observes the forced-unwind signal,
unwinds, and terminates through `run()`'s catch handler), observes
`terminated == true` (the line-356 assertion passes), and only then calls
`deallocate`, which destroys the closure state and returns the stack to the
allocator exactly once; the closure body itself never runs during the unwind
(`effects` and `closureInvocations` are unchanged). -/
theorem C1_destructor_unwinds_suspended (s : Sys) (r : RecId) (k kP : Prog)
    (hne : r ≠ s.cur)
    (hmain : (s.recs r).main_ctx = false)
    (hterm : (s.recs r).terminated = false)
    (hkont : (s.recs r).kont = .afterSwap (.userCode k)) :
    contCode (stepN 5 s (.dtorRun (some r) kP)) = some (.progC none kP)
    ∧ (contSys (stepN 5 s (.dtorRun (some r) kP))).map
        (fun s2 => ((s2.recs r).terminated, (s2.recs r).closureDestroyed,
                    (s2.recs r).freeCount, s2.cur, s2.effects, s2.closureInvocations))
      = some (true, true, (s.recs r).freeCount + 1, s.cur, s.effects,
              s.closureInvocations) := by
  constructor
  · simp [stepN, step, contCode, switchInto, kontToCode, deallocStep,
          setFromp, setFU, setKont, setOntop, setTermFlags, setDealloc,
          updRec_ne, hne, Ne.symm hne, hmain, hterm, hkont]
  · simp [stepN, step, contSys, switchInto, kontToCode, deallocStep,
          setFromp, setFU, setKont, setOntop, setTermFlags, setDealloc,
          updRec_ne, hne, Ne.symm hne, hmain, hterm, hkont]

/-- Witness for C1 (amended): destroying a concrete suspended record. -/
theorem C1_destructor_unwinds_suspended_witness :
    (1 : RecId) ≠ (sysWith (suspUserRec .ret)).cur
    ∧ ((sysWith (suspUserRec .ret)).recs 1).main_ctx = false
    ∧ ((sysWith (suspUserRec .ret)).recs 1).terminated = false
    ∧ contCode (stepN 5 (sysWith (suspUserRec .ret)) (.dtorRun (some 1) .halt))
        = some (.progC none .halt)
    ∧ (contSys (stepN 5 (sysWith (suspUserRec .ret)) (.dtorRun (some 1) .halt))).map
        (fun s2 => ((s2.recs 1).terminated, (s2.recs 1).closureDestroyed,
                    (s2.recs 1).freeCount, s2.cur, s2.effects, s2.closureInvocations))
        = some (true, true, 1, 0, 0, 0) :=
  ⟨by decide, rfl, rfl,
   (C1_destructor_unwinds_suspended (sysWith (suspUserRec .ret)) 1 .ret .halt
      (by decide) rfl rfl rfl).1,
   (C1_destructor_unwinds_suspended (sysWith (suspUserRec .ret)) 1 .ret .halt
      (by decide) rfl rfl rfl).2⟩

/-- C1 counterexample: the claim quantifies over *every* non-empty, non-main,
not-yet-terminated handle, but for a fresh (never resumed) record whose
closure transfers control back to its creator, the destructor's forced resume
enters the closure instead of unwinding; when the closure resumes back, the
record is still not terminated, so `BOOST_ASSERT(ptr_->terminated)` (line
356) fails and `deallocate` is never reached: the stack is freed zero times,
not exactly once.  Concrete input: `fiber{resumingClosure}` destroyed
immediately after construction. -/
theorem C1_counterexample_fresh_resuming :
    abortOf (runMain 20 freshDropResuming) = some .dtorTerminatedAssert
    ∧ (sysOf (runMain 20 freshDropResuming)).map
        (fun s => ((s.recs 1).terminated, (s.recs 1).freeCount,
                   (s.recs 1).closureDestroyed))
      = some (false, 0, false) :=
  ⟨rfl, rfl⟩

/-- C2 (code bug): destroying a constructed-but-never-resumed fiber is
required (spec section 8, and the upstream Boost.Context fiber semantics) not
to invoke the user closure; but this backend's destructor resumes the fresh
record, whose first activation runs `fiber_entry_func` -> `run()` -> the
closure (line 220), so the closure is invoked and its side effects are
observed.  At the failing input `fiber{witnessClosure}` destroyed right after
construction, the run finishes with the closure invoked once and one side
effect observed (the claim demands zero), the record terminated by an
ordinary closure return, and the stack freed once. -/
theorem C2_fresh_destruction_invokes_closure :
    isFinished (runMain 20 freshDropMain) = true
    ∧ (sysOf (runMain 20 freshDropMain)).map
        (fun s => (s.closureInvocations, s.effects, (s.recs 1).freeCount,
                   (s.recs 1).terminated))
      = some (1, 1, 1, true) :=
  ⟨rfl, rfl⟩


/-- C7: for every fiber handle, `operator bool` returns true iff the handle
holds a record pointer whose `terminated` flag is false, and `operator!` is
the exact negation of `operator bool` (lines 409-411). -/
theorem C7_operator_bool_spec (recs : RecId → RecC) (p : HandlePtr) :
    (fiber_op_bool recs p = true
      ↔ ∃ r, p = some r ∧ (recs r).terminated = false)
    ∧ fiber_op_not recs p = !fiber_op_bool recs p := by
  constructor
  · cases p <;> simp [fiber_op_bool]
  · cases p <;> simp [fiber_op_not, fiber_op_bool]

/-- C8: for a handle holding the main-context record, `fiber::~fiber` is a
no-op — the `!ptr_->main_ctx` guard (line 352) skips the whole body, so no
`force_unwind` write, no resume, and no `deallocate` happen and the state is
returned unchanged; the main record outlives the handle. -/
theorem C8_dtor_main_noop (s : Sys) (t : RecId) (k : Prog)
    (hmain : (s.recs t).main_ctx = true) :
    step s (.dtorRun (some t) k) = .cont s (.progC none k) := by
  simp [step, hmain]

/-- Witness for C8 at the initial state's main record. -/
theorem C8_dtor_main_noop_witness :
    (initSys.recs 0).main_ctx = true
      ∧ step initSys (.dtorRun (some 0) .halt) = .cont initSys (.progC none .halt) :=
  ⟨rfl, C8_dtor_main_noop initSys 0 .halt rfl⟩

/-- C9: self-move-assignment `x = std::move(x)` is a no-op: the
`this != &other` guard (line 368) makes the operator return immediately, the
store is unchanged (so `x` still owns the same record pointer) and nothing is
destroyed. -/
theorem C9_self_move_assign_noop (st : FiberStore) (x : Nat) :
    fiber_move_assign st x x = (st, none)
      ∧ (fiber_move_assign st x x).1 x = st x := by
  simp [fiber_move_assign]

/-- C10: for a fiber construction over a stack region, the capture record is
placed at `(stack_base - sizeof(T) - 10000) & ~0xff`, i.e. at the value
`stack_base - sizeof(T) - 10000` rounded down to a 256-byte boundary
(a multiple of 256, no greater than the unrounded value), the placement is
accepted only when it lies strictly above the region's bottom (line 247,
modelled by the `some` result), the bytes from the end of the record up to the
original stack pointer become the asyncify stack (emitted pointer and size,
lines 253-258), its `asyncify_stack_owned` flag stays `false`, and hence the
guard of `~fiber_activation_record` (lines 96-97) never frees that auxiliary
memory separately. -/
theorem C10_record_placement (sctx : stack_context) (stack_base sizeofT : Nat)
    (hsz : sctx.size ≤ sctx.sp) (hsp : sctx.sp < 2 ^ 32)
    (hreq : sizeofT + 10000 ≤ stack_base) (hbase : stack_base ≤ sctx.sp)
    (hassert : sctx.sp - sctx.size < 256 * ((stack_base - (sizeofT + 10000)) / 256)) :
    allocate_and_init_record sctx stack_base sizeofT =
      some { record_ptr := 256 * ((stack_base - (sizeofT + 10000)) / 256),
             asyncify_stack_ptr := 256 * ((stack_base - (sizeofT + 10000)) / 256) + sizeofT,
             asyncify_stack_size :=
               sctx.sp - (256 * ((stack_base - (sizeofT + 10000)) / 256) + sizeofT),
             asyncify_stack_owned := false }
    ∧ 256 * ((stack_base - (sizeofT + 10000)) / 256) % 256 = 0
    ∧ 256 * ((stack_base - (sizeofT + 10000)) / 256) ≤ stack_base - (sizeofT + 10000)
    ∧ activationDtorFreesAsyncify true false = false := by
  have hmod : UINTPTR_MOD = 4294967296 := by norm_num [UINTPTR_MOD]
  have hle : 256 * ((stack_base - (sizeofT + 10000)) / 256)
      ≤ stack_base - (sizeofT + 10000) := by
    rw [Nat.mul_comm]
    exact Nat.div_mul_le_self _ 256
  have hsub1 : sub32 stack_base (sizeofT + 10000) = stack_base - (sizeofT + 10000) := by
    simp only [sub32, hmod]
    omega
  have hsub2 : sub32 sctx.sp sctx.size = sctx.sp - sctx.size := by
    simp only [sub32, hmod]
    omega
  have hx : stack_base - (sizeofT + 10000) < 2 ^ 32 := by omega
  have hland := land_maskNotFF (stack_base - (sizeofT + 10000)) hx
  have hsub3 : sub32 sctx.sp (256 * ((stack_base - (sizeofT + 10000)) / 256) + sizeofT)
      = sctx.sp - (256 * ((stack_base - (sizeofT + 10000)) / 256) + sizeofT) := by
    simp only [sub32, hmod]
    omega
  refine ⟨?_, Nat.mul_mod_right 256 _, hle, rfl⟩
  simp only [allocate_and_init_record, hsub1, hsub2, hland, hsub3]
  rw [if_pos hassert]

/-- Witness for C10 on a one-MiB stack region with a 200-byte record. -/
theorem C10_record_placement_witness :
    (200 : Nat) + 10000 ≤ 1048576
    ∧ allocate_and_init_record ⟨1048576, 1048576⟩ 1048576 200 =
        some { record_ptr := 1038336, asyncify_stack_ptr := 1038536,
               asyncify_stack_size := 10040, asyncify_stack_owned := false } := by
  refine ⟨by norm_num, ?_⟩
  have h := C10_record_placement ⟨1048576, 1048576⟩ 1048576 200
    (by norm_num) (by norm_num) (by norm_num) (by norm_num) (by norm_num)
  simpa using h.1

end BoostFiber

